import Mathlib

/-!
Shallow embedding of the tenant-scoped authorization core of silocore-go:
the JWT token codec (internal/auth/jwt), the auth service
(internal/auth/service), the role middleware (internal/http/middleware),
the transaction middleware (internal/database/transaction) and the tenant
service (internal/tenant and the DB tenant service).

Go int64 identifiers are modelled as Int (no arithmetic overflows occur in
the embedded code paths), Go errors as inductive error types carried in
Except, and the Go database/HTTP side effects as explicit state or event
traces.
-/

namespace Silocore

/-! ### Roles (internal/auth/context/context.go)

`Role` is a string type in Go with three named constants. -/

abbrev Role := String

def RoleAdmin : Role := "ADMIN"

def RoleInternal : Role := "INTERNAL"

def RoleTenantSuper : Role := "TENANT_SUPER"

/-! ### JWT token codec (internal/auth/jwt)

Tokens are modelled structurally: a token records its declared signing
algorithm, its claims, and its signature.  The HMAC signature is modelled
as an ideal MAC: the signature value is the triple of the signing key, the
algorithm and the signed claims, and verification succeeds exactly when the
recomputed MAC equals the stored one.  `generateToken` signs with HS256,
while `ValidateToken`'s key function accepts any `*jwt.SigningMethodHMAC`
(HS256/HS384/HS512) and rejects everything else. -/

inductive Alg
  | HS256
  | HS384
  | HS512
  | RS256
deriving DecidableEq, Repr

/-- `token.Method.(*jwt.SigningMethodHMAC)` succeeds exactly for the HMAC
family of algorithms. -/
def Alg.isHMAC : Alg → Bool
  | .HS256 => true
  | .HS384 => true
  | .HS512 => true
  | .RS256 => false

/-- CustomClaims: registered claims (issuer, iat, exp) plus user_id,
username and the optional tenant_id. -/
structure Claims where
  issuer : String
  issuedAt : Int
  expiresAt : Int
  userID : Int
  username : String
  tenantID : Option Int
deriving DecidableEq, Repr

/-- An ideal MAC value: determined by key, algorithm and message. -/
structure Sig where
  key : String
  alg : Alg
  msg : Claims
deriving DecidableEq, Repr

def mac (key : String) (alg : Alg) (msg : Claims) : Sig :=
  { key := key, alg := alg, msg := msg }

structure Token where
  alg : Alg
  claims : Claims
  sig : Sig
deriving DecidableEq, Repr

/-- jwt.Config (internal/auth/jwt/types.go). -/
structure JwtConfig where
  secret : String
  accessExpiration : Int
  refreshExpiration : Int
  issuer : String
deriving DecidableEq, Repr

inductive JwtError
  | invalidToken
  | expiredToken
  | missingClaim
deriving DecidableEq, Repr

/-- Service.generateToken: builds the claims from `now` and the expiration
window and signs with HS256.  HMAC signing of an in-memory byte key cannot
fail, so the Go error return is omitted from the model. -/
def generateToken (cfg : JwtConfig) (now : Int) (userID : Int) (username : String)
    (tenantID : Option Int) (expirationSeconds : Int) : Token :=
  let claims : Claims :=
    { issuer := cfg.issuer
      issuedAt := now
      expiresAt := now + expirationSeconds
      userID := userID
      username := username
      tenantID := tenantID }
  { alg := .HS256, claims := claims, sig := mac cfg.secret .HS256 claims }

/-- jwt.TokenPair. -/
structure TokenPair where
  accessToken : Token
  refreshToken : Token
  expiresIn : Int
deriving DecidableEq, Repr

/-- Service.GenerateTokenPair: access token carries the requested tenant
scope, the refresh token is generated with a nil tenant ID. -/
def generateTokenPair (cfg : JwtConfig) (now : Int) (userID : Int) (username : String)
    (tenantID : Option Int) : TokenPair :=
  { accessToken := generateToken cfg now userID username tenantID cfg.accessExpiration
    refreshToken := generateToken cfg now userID username none cfg.refreshExpiration
    expiresIn := cfg.accessExpiration }

/-- Service.ValidateToken: the key function rejects non-HMAC algorithms;
the parser then verifies the signature with the declared method and the
configured secret, checks expiry (`jwt.ErrTokenExpired` iff now is at or
past `exp`), and finally the service rejects a zero user_id. -/
def validateToken (cfg : JwtConfig) (now : Int) (t : Token) : Except JwtError Claims :=
  if t.alg.isHMAC = false then
    .error .invalidToken
  else if t.sig ≠ mac cfg.secret t.alg t.claims then
    .error .invalidToken
  else if t.claims.expiresAt ≤ now then
    .error .expiredToken
  else if t.claims.userID = 0 then
    .error .missingClaim
  else
    .ok t.claims

/-- Service.SwitchTenantContext (jwt level): validates the current token
and issues a fresh access token for the same identity with the new tenant
scope. -/
def jwtSwitchTenantContext (cfg : JwtConfig) (now : Int) (currentToken : Token)
    (newTenantID : Option Int) : Except JwtError Token :=
  match validateToken cfg now currentToken with
  | .error e => .error e
  | .ok claims =>
      .ok (generateToken cfg now claims.userID claims.username newTenantID cfg.accessExpiration)

/-! ### Store interfaces (internal/auth/service, internal/tenant/service)

The Go services consume `UserService` and `TenantMemberService`
interfaces; they are modelled as records of functions returning `Except`,
so a theorem can quantify over all possible store behaviours, including
store failures. -/

/-- service.User (internal/auth/service/user_service.go). -/
structure User where
  id : Int
  email : String
  firstName : String
  lastName : String
  passwordHash : String
deriving DecidableEq, Repr

/-- GetUserByEmail distinguishes ErrUserNotFound from other database
failures. -/
inductive LookupErr
  | userNotFound
  | dbFailure
deriving DecidableEq, Repr

structure UserSvc where
  getUserByEmail : String → Except LookupErr User
  getUserRoles : Int → Except Unit (List Role)
  getUserTenantRoles : Int → Int → Except Unit (List Role)

structure TenantMemberSvc where
  getUserDefaultTenant : Int → Except Unit (Option Int)
  isTenantMember : Int → Int → Except Unit Bool

/-- Error values returned by DefaultAuthService.  `wrapped` stands for a
`fmt.Errorf("...: %w", err)` wrapping of an underlying store error — a
distinct error value, never equal to ErrUnauthorized or
ErrInvalidCredentials. -/
inductive SvcError
  | unauthorized
  | invalidCredentials
  | wrapped (msg : String)
  | jwt (e : JwtError)
deriving DecidableEq, Repr

/-! ### DefaultAuthService (src/unnamed/part_011) -/

/-- DefaultAuthService.SwitchTenantContext.  With a nil target the user
must hold the ADMIN system role; with a tenant target the user must be a
member of that tenant — the code performs no admin short-circuit on the
tenant path. -/
def switchTenantContext (us : UserSvc) (tm : TenantMemberSvc) (cfg : JwtConfig) (now : Int)
    (userID : Int) (currentToken : Token) (newTenantID : Option Int) : Except SvcError Token :=
  match newTenantID with
  | none =>
      match us.getUserRoles userID with
      | .error _ => .error (.wrapped "failed to get user roles")
      | .ok roles =>
          if roles.contains RoleAdmin then
            match jwtSwitchTenantContext cfg now currentToken none with
            | .error e => .error (.jwt e)
            | .ok tok => .ok tok
          else
            .error .unauthorized
  | some t =>
      match tm.isTenantMember userID t with
      | .error _ => .error (.wrapped "failed to check tenant membership")
      | .ok isMember =>
          if isMember then
            match jwtSwitchTenantContext cfg now currentToken (some t) with
            | .error e => .error (.jwt e)
            | .ok tok => .ok tok
          else
            .error .unauthorized

/-- DefaultAuthService.ValidateAccess. -/
def validateAccess (us : UserSvc) (tm : TenantMemberSvc) (userID : Int)
    (tenantID : Option Int) (requiredRoles : List Role) : Except SvcError Unit :=
  match us.getUserRoles userID with
  | .error _ => .error (.wrapped "failed to get user roles")
  | .ok systemRoles =>
      if systemRoles.contains RoleAdmin then
        .ok ()
      else
        match tenantID with
        | some t =>
            match tm.isTenantMember userID t with
            | .error _ => .error (.wrapped "failed to check tenant membership")
            | .ok isMember =>
                if isMember then
                  if requiredRoles.isEmpty then
                    .ok ()
                  else
                    match us.getUserTenantRoles userID t with
                    | .error _ => .error (.wrapped "failed to get tenant roles")
                    | .ok tenantRoles =>
                        if requiredRoles.any (fun r => tenantRoles.contains r) then
                          .ok ()
                        else
                          .error .unauthorized
                else
                  .error .unauthorized
        | none => .ok ()

/-- DefaultAuthService.loginWithVerifier: looks the user up by email,
verifies the password with the injected verifier, resolves the default
tenant and issues a token pair scoped to it. -/
def loginWithVerifier (us : UserSvc) (tm : TenantMemberSvc) (cfg : JwtConfig) (now : Int)
    (email password : String) (verifyFunc : String → String → Except Unit Bool) :
    Except SvcError (TokenPair × Int) :=
  match us.getUserByEmail email with
  | .error .userNotFound => .error .invalidCredentials
  | .error .dbFailure => .error (.wrapped "database error during login")
  | .ok user =>
      match verifyFunc user.passwordHash password with
      | .error _ => .error (.wrapped "error verifying password")
      | .ok false => .error .invalidCredentials
      | .ok true =>
          match tm.getUserDefaultTenant user.id with
          | .error _ => .error (.wrapped "error getting default tenant")
          | .ok defaultTenant =>
              .ok (generateTokenPair cfg now user.id user.email defaultTenant, user.id)

/-! ### Transaction middleware (internal/database/transaction/middleware.go)

One request through `Manager.Middleware` is modelled as a function from a
request description (which of the fallible steps fail, whether a tenant
scope is resolved in the context, what the handler does) to the sequence
of transaction/session actions it performs, the response status, and the
propagated panic value.  The handler is described by the list of status
codes it passes to WriteHeader (the wrapper records every call, so the
last one is the captured status, defaulting to the initial 200) and an
optional panic value. -/

inductive TxAction
  | setScope (t : Int)
  | clearScopeOk
  | clearScopeFailed
  | commit
  | rollback
deriving DecidableEq, Repr

structure MwInput where
  beginFails : Bool
  tenantID : Option Int
  setScopeFails : Bool
  clearScopeFails : Bool
  handlerPanic : Option String
  handlerWrites : List Nat
  commitFails : Bool
deriving Repr

structure MwResult where
  actions : List TxAction
  status : Nat
  panicOut : Option String
  captured : Nat
deriving DecidableEq, Repr

/-- newResponseWriter starts the captured status at http.StatusOK; every
WriteHeader call overwrites it. -/
def capturedStatus (writes : List Nat) : Nat :=
  (writes.getLast?).getD 200

/-- The deferred function installed after a successful Begin and tenant
scope set: recover from a panic (rollback, re-panic), otherwise clear the
tenant context if one was set (failure only logged), then commit when the
captured status is in 200..499 and roll back otherwise. -/
def finalizePhase (i : MwInput) (scope : Option Int) (pre : List TxAction) : MwResult :=
  match i.handlerPanic with
  | some v =>
      { actions := pre ++ [TxAction.rollback]
        status := capturedStatus i.handlerWrites
        panicOut := some v
        captured := capturedStatus i.handlerWrites }
  | none =>
      let cap := capturedStatus i.handlerWrites
      let clearActs : List TxAction :=
        match scope with
        | some _ => [if i.clearScopeFails then TxAction.clearScopeFailed else TxAction.clearScopeOk]
        | none => []
      if 200 ≤ cap ∧ cap < 500 then
        { actions := pre ++ clearActs ++ [TxAction.commit]
          status := if i.commitFails then 500 else cap
          panicOut := none
          captured := cap }
      else
        { actions := pre ++ clearActs ++ [TxAction.rollback]
          status := cap
          panicOut := none
          captured := cap }

/-- Manager.Middleware, one request: Begin failure is a 500 with no
transaction; a resolved tenant scope is pushed into the session before the
handler runs, and a SetTenantContext failure rolls back and answers 500
before the deferred finalizer is even installed. -/
def middleware (i : MwInput) : MwResult :=
  if i.beginFails then
    { actions := [], status := 500, panicOut := none, captured := 200 }
  else
    match i.tenantID with
    | some t =>
        if i.setScopeFails then
          { actions := [TxAction.rollback], status := 500, panicOut := none, captured := 200 }
        else
          finalizePhase i (some t) [TxAction.setScope t]
    | none => finalizePhase i none []

/-! ### Role middleware (internal/http/middleware/auth.go, RoleMiddleware) -/

structure RoleMwInput where
  userID : Option Int
  tenantID : Option Int
  sysRolesResult : Except Unit (List Role)
  memberResult : Except Unit Bool
  tenantRolesResult : Except Unit (List Role)

inductive RoleMwOutcome
  | reject (status : Nat)
  | proceed (roles : List Role)
deriving DecidableEq, Repr

/-- A failed system-role lookup is replaced by the empty role list
(fail-open). -/
def effectiveSystemRoles (i : RoleMwInput) : List Role :=
  match i.sysRolesResult with
  | .error _ => []
  | .ok rs => rs

/-- A failed membership check is treated as non-membership (fail-closed). -/
def effectiveIsMember (i : RoleMwInput) : Bool :=
  match i.memberResult with
  | .error _ => false
  | .ok b => b

/-- RoleMiddleware: 401 without an authenticated user; system roles are
fetched fail-open and stored in the context; with a tenant scope present,
membership is checked fail-closed and a requester who is neither a member
nor an admin gets a 403; tenant roles are then appended when their fetch
succeeds (a fetch error is only logged). -/
def roleMiddleware (i : RoleMwInput) : RoleMwOutcome :=
  match i.userID with
  | none => .reject 401
  | some _ =>
      let roles := effectiveSystemRoles i
      match i.tenantID with
      | none => .proceed roles
      | some _ =>
          let isMember := effectiveIsMember i
          let isAdmin := roles.contains RoleAdmin
          if isMember = false ∧ isAdmin = false then
            .reject 403
          else
            match i.tenantRolesResult with
            | .error _ => .proceed roles
            | .ok tenantRoles => .proceed (roles ++ tenantRoles)

/-! ### DBTenantService.RemoveTenantMember (src/unnamed/part_000)

The relevant database state is the tenant_member table and the
tenant_role table.  The method runs inside a transaction with a deferred
rollback, so on every error path the returned state is the original one;
only the commit path publishes the deletions. -/

structure TenantDB where
  members : List (Int × Int)
  roleGrants : List (Int × Int × Role)
deriving DecidableEq, Repr

/-- Which of the fallible database steps fail during the call. -/
structure DBFail where
  beginFails : Bool
  deleteRolesFails : Bool
  deleteMemberFails : Bool
  commitFails : Bool
deriving Repr

/-- Error values of the tenant services.  part_000's DBTenantService uses
ErrTenantNotFound for a zero-row membership delete; ErrMemberNotFound is
the analogous error of the separate DBTenantMemberService. -/
inductive TenantSvcErr
  | dbOperation
  | tenantNotFound
  | memberNotFound
deriving DecidableEq, Repr

/-- DBTenantService.RemoveTenantMember: in one transaction, delete the
user's tenant_role rows for the tenant, then the tenant_member row; if no
membership row was deleted return ErrTenantNotFound; commit otherwise.
The pair's second component is the database state after the call.  The
deletions run in the transaction's working copy (roles first, then the
membership; the role deletion does not touch the members table, so
rowsAffected counts the membership rows of the original state), and every
non-commit path ends in the deferred tx.Rollback, so each error branch
returns the original state while the commit branch publishes both
deletions at once. -/
def removeTenantMember (f : DBFail) (db : TenantDB) (userID tenantID : Int) :
    Except TenantSvcErr Unit × TenantDB :=
  if f.beginFails then
    (.error .dbOperation, db)
  else if f.deleteRolesFails then
    (.error .dbOperation, db)
  else if f.deleteMemberFails then
    (.error .dbOperation, db)
  else if (db.members.filter (fun m => m.1 = userID ∧ m.2 = tenantID)).length = 0 then
    (.error .tenantNotFound, db)
  else if f.commitFails then
    (.error .dbOperation, db)
  else
    (.ok (),
      { members := db.members.filter (fun m => ¬(m.1 = userID ∧ m.2 = tenantID))
        roleGrants := db.roleGrants.filter (fun g => ¬(g.1 = userID ∧ g.2.1 = tenantID)) })

/-! ### Concrete fixtures for closed instances -/

/-- A concrete JWT configuration used for witnesses. -/
def cfg0 : JwtConfig :=
  { secret := "k", accessExpiration := 3600, refreshExpiration := 86400, issuer := "silocore" }

/-- A concrete valid access token used for witnesses. -/
def tok0 : Token := generateToken cfg0 0 1 "alice" none 3600

/-- A concrete user service used for witnesses. -/
def usW : UserSvc :=
  { getUserByEmail := fun _ => .error .userNotFound
    getUserRoles := fun _ => .ok [RoleAdmin]
    getUserTenantRoles := fun _ _ => .ok [] }

/-- A concrete tenant-member service used for witnesses. -/
def tmW : TenantMemberSvc :=
  { getUserDefaultTenant := fun _ => .ok none
    isTenantMember := fun _ _ => .ok true }

/-- A concrete user record used for witnesses. -/
def userW : User :=
  { id := 1, email := "a@b.c", firstName := "A", lastName := "B", passwordHash := "h" }

/-- A user service that knows `userW`. -/
def usW2 : UserSvc :=
  { usW with getUserByEmail := fun _ => .ok userW }

/-- Claims of a token used in the C8 counterexample. -/
def claimsA : Claims :=
  { issuer := "silocore", issuedAt := 0, expiresAt := 3600, userID := 1,
    username := "alice", tenantID := none }

/-- A token declaring HS384 — a different algorithm from the configured
HS256 — signed with the configured secret. -/
def tokHS384 : Token :=
  { alg := .HS384, claims := claimsA, sig := mac "k" .HS384 claimsA }

/-- A token declaring a non-HMAC algorithm. -/
def tokRS256 : Token :=
  { alg := .RS256, claims := claimsA, sig := mac "k" .RS256 claimsA }

/-- A request whose tenant-filter clear fails while the handler succeeded
with status 200. -/
def mwClearFail : MwInput :=
  { beginFails := false, tenantID := some 1, setScopeFails := false,
    clearScopeFails := true, handlerPanic := none, handlerWrites := [], commitFails := false }

/-- A request whose handler panics with a tenant scope set. -/
def mwPanic : MwInput :=
  { beginFails := false, tenantID := some 1, setScopeFails := false,
    clearScopeFails := false, handlerPanic := some "boom", handlerWrites := [],
    commitFails := false }

/-- A scoped request whose handler writes nothing and nothing fails. -/
def mwPlain : MwInput :=
  { beginFails := false, tenantID := some 1, setScopeFails := false,
    clearScopeFails := false, handlerPanic := none, handlerWrites := [],
    commitFails := false }

/-- A role-middleware request where both the system-role lookup and the
membership check fail, with a tenant scope present. -/
def rmwErr : RoleMwInput :=
  { userID := some 1, tenantID := some 7, sysRolesResult := .error (),
    memberResult := .error (), tenantRolesResult := .ok [] }

/-- A run of the tenant-member removal in which no database step fails. -/
def fOk : DBFail :=
  { beginFails := false, deleteRolesFails := false, deleteMemberFails := false,
    commitFails := false }

/-- A database holding one membership with one role grant. -/
def dbW : TenantDB :=
  { members := [(1, 2)], roleGrants := [(1, 2, RoleTenantSuper)] }

/-- An empty database: user 1 is not a member of tenant 2. -/
def dbEmpty : TenantDB :=
  { members := [], roleGrants := [] }

/-! ## Theorems -/

/-- C1: for every user, valid current token and target tenant, and for any
behaviour of the role store (in particular for a user holding the ADMIN
system role), SwitchTenantContext to `some t` succeeds with a token scoped
to `t` exactly when the membership store answers true; on a false answer it
fails with ErrUnauthorized and issues no token. -/
theorem switchTenantContext_member_iff
    (us : UserSvc) (tm : TenantMemberSvc) (cfg : JwtConfig) (now : Int)
    (u t : Int) (tok : Token) (cl : Claims) (b : Bool)
    (hmem : tm.isTenantMember u t = .ok b)
    (htok : validateToken cfg now tok = .ok cl) :
    ((∃ tok2, switchTenantContext us tm cfg now u tok (some t) = .ok tok2 ∧
        tok2.claims.tenantID = some t) ↔ b = true)
    ∧ (b = false →
        switchTenantContext us tm cfg now u tok (some t) = .error .unauthorized) := by
  cases b <;>
    simp [switchTenantContext, jwtSwitchTenantContext, hmem, htok, generateToken]

/-- Closed instance of `switchTenantContext_member_iff` at a concrete
store, token and tenant. -/
theorem switchTenantContext_member_iff_witness :
    ((∃ tok2, switchTenantContext usW tmW cfg0 1 1 tok0 (some 7) = .ok tok2 ∧
        tok2.claims.tenantID = some 7) ↔ true = true)
    ∧ (true = false →
        switchTenantContext usW tmW cfg0 1 1 tok0 (some 7) = .error .unauthorized) :=
  switchTenantContext_member_iff usW tmW cfg0 1 1 7 tok0 tok0.claims true rfl rfl

/-- C2: with non-erroring stores, ValidateAccess succeeds exactly when the
user holds ADMIN, or no tenant scope is given, or the user is a member of
the scoped tenant and either no roles are required or the required roles
intersect the user's tenant roles; every failure is ErrUnauthorized. -/
theorem validateAccess_characterization
    (us : UserSvc) (tm : TenantMemberSvc) (u : Int) (tid : Option Int) (req : List Role)
    (sys : List Role) (m : Bool) (tr : List Role)
    (hsys : us.getUserRoles u = .ok sys)
    (hmem : ∀ t, tid = some t → tm.isTenantMember u t = .ok m)
    (htr : ∀ t, tid = some t → us.getUserTenantRoles u t = .ok tr) :
    (validateAccess us tm u tid req = .ok () ↔
      (sys.contains RoleAdmin = true ∨ tid = none ∨
        (tid ≠ none ∧ m = true ∧ (req = [] ∨ req.any (fun r => tr.contains r) = true))))
    ∧ (validateAccess us tm u tid req ≠ .ok () →
        validateAccess us tm u tid req = .error .unauthorized) := by
  unfold validateAccess
  rw [hsys]
  cases hadm : sys.contains RoleAdmin with
  | true =>
    have hadm2 : RoleAdmin ∈ sys := by simpa using hadm
    simp [hadm2]
  | false =>
    have hadm2 : RoleAdmin ∉ sys := by simpa using hadm
    cases tid with
    | none => simp [hadm2]
    | some t =>
      have hm := hmem t rfl
      have ht := htr t rfl
      cases m with
      | false => simp [hadm2, hm]
      | true =>
        cases hre : req.isEmpty with
        | true =>
          have hreq : req = [] := by simpa using hre
          simp [hadm2, hm, hreq]
        | false =>
          have hne : req ≠ [] := by simpa using hre
          cases hany : req.any (fun r => tr.contains r) <;>
            simp_all [hadm2, hm, ht, hne]

/-- Closed instance of `validateAccess_characterization` at a concrete
store, user and tenant scope. -/
theorem validateAccess_characterization_witness :
    (validateAccess usW tmW 1 (some 7) [] = .ok () ↔
      (([RoleAdmin] : List Role).contains RoleAdmin = true ∨ (some 7 : Option Int) = none ∨
        ((some 7 : Option Int) ≠ none ∧ true = true ∧
          (([] : List Role) = [] ∨ ([] : List Role).any (fun r => ([] : List Role).contains r) = true))))
    ∧ (validateAccess usW tmW 1 (some 7) [] ≠ .ok () →
        validateAccess usW tmW 1 (some 7) [] = .error .unauthorized) :=
  validateAccess_characterization usW tmW 1 (some 7) [] [RoleAdmin] true [] rfl
    (fun _ h => by cases h; rfl) (fun _ h => by cases h; rfl)

/-- C7: Login answers the identical error value ErrInvalidCredentials both
when no user exists for the email and when the user exists but the
password fails verification, and in neither case is a token pair
issued. -/
theorem login_no_user_enumeration
    (us1 us2 : UserSvc) (tm1 tm2 : TenantMemberSvc) (cfg : JwtConfig) (now1 now2 : Int)
    (email pw : String) (verifyFunc : String → String → Except Unit Bool) (user : User)
    (h1 : us1.getUserByEmail email = .error .userNotFound)
    (h2 : us2.getUserByEmail email = .ok user)
    (h3 : verifyFunc user.passwordHash pw = .ok false) :
    loginWithVerifier us1 tm1 cfg now1 email pw verifyFunc = .error .invalidCredentials
    ∧ loginWithVerifier us2 tm2 cfg now2 email pw verifyFunc = .error .invalidCredentials := by
  constructor
  · unfold loginWithVerifier
    rw [h1]
  · unfold loginWithVerifier
    rw [h2]
    simp [h3]

/-- Closed instance of `login_no_user_enumeration`: a store without the
user and a store with the user but a failing password check return the
same error value. -/
theorem login_no_user_enumeration_witness :
    loginWithVerifier usW tmW cfg0 0 "a@b.c" "pw" (fun _ _ => .ok false) =
      .error .invalidCredentials
    ∧ loginWithVerifier usW2 tmW cfg0 0 "a@b.c" "pw" (fun _ _ => .ok false) =
      .error .invalidCredentials :=
  login_no_user_enumeration usW usW2 tmW tmW cfg0 0 0 "a@b.c" "pw"
    (fun _ _ => .ok false) userW rfl rfl rfl

/-- C5 counterexample: as stated over every userID the round-trip fails —
with userID 0 the generated access token is rejected by ValidateToken with
ErrMissingClaim instead of recovering the claims, and even with a nonzero
userID validation after the expiration window fails rather than recover
the claims. -/
theorem tokenPair_roundTrip_cex :
    validateToken cfg0 1 (generateTokenPair cfg0 0 0 "alice" (some 7)).accessToken =
      .error .missingClaim
    ∧ validateToken cfg0 5000 (generateTokenPair cfg0 0 1 "alice" (some 7)).accessToken =
      .error .expiredToken := by
  constructor <;> rfl

/-- Whenever ValidateToken succeeds, the returned claims are exactly the
token's claims. -/
theorem validateToken_ok_claims (cfg : JwtConfig) (now : Int) (t : Token) (cl : Claims)
    (h : validateToken cfg now t = .ok cl) : cl = t.claims := by
  unfold validateToken at h
  repeat' split at h
  all_goals cases h
  all_goals rfl

/-- C5 (amended): for every nonzero userID, username and optional tenant
scope, validating the access token of GenerateTokenPair before its expiry
recovers exactly the issued userID, username and tenant scope, and
validating the refresh token of the same pair never yields a non-nil
tenant scope. -/
theorem tokenPair_roundTrip
    (cfg : JwtConfig) (now t1 : Int) (uid : Int) (username : String) (ts : Option Int)
    (huid : uid ≠ 0) (ht1 : t1 < now + cfg.accessExpiration) :
    validateToken cfg t1 (generateTokenPair cfg now uid username ts).accessToken =
      .ok { issuer := cfg.issuer, issuedAt := now, expiresAt := now + cfg.accessExpiration,
            userID := uid, username := username, tenantID := ts }
    ∧ ∀ t2 cl,
        validateToken cfg t2 (generateTokenPair cfg now uid username ts).refreshToken = .ok cl →
          cl.tenantID = none := by
  constructor
  · have hexp : ¬(now + cfg.accessExpiration ≤ t1) := by omega
    simp [validateToken, generateTokenPair, generateToken, mac, Alg.isHMAC, hexp, huid]
  · intro t2 cl h
    rw [validateToken_ok_claims cfg t2 _ cl h]
    rfl

/-- Closed instance of `tokenPair_roundTrip` at a concrete configuration,
identity and tenant scope. -/
theorem tokenPair_roundTrip_witness :
    (validateToken cfg0 1 (generateTokenPair cfg0 0 1 "alice" (some 7)).accessToken =
      .ok { issuer := "silocore", issuedAt := 0, expiresAt := 0 + 3600,
            userID := 1, username := "alice", tenantID := some 7 }
    ∧ ∀ t2 cl,
        validateToken cfg0 t2 (generateTokenPair cfg0 0 1 "alice" (some 7)).refreshToken = .ok cl →
          cl.tenantID = none) :=
  tokenPair_roundTrip cfg0 0 1 1 "alice" (some 7) (by decide) (by decide)

/-- C8 counterexample: a token whose header declares HS384 — not the
configured HS256 — is accepted by ValidateToken with its claims, because
the key function only checks for the HMAC method family. -/
theorem validateToken_alg_cex :
    tokHS384.alg ≠ Alg.HS256 ∧ validateToken cfg0 1 tokHS384 = .ok claimsA := by
  constructor
  · intro h
    cases h
  · rfl

/-- C8 (amended): ValidateToken rejects every token whose declared signing
algorithm is outside the HMAC family (the family of the configured HS256)
with an error and returns no claims. -/
theorem validateToken_rejects_nonHMAC (cfg : JwtConfig) (now : Int) (t : Token)
    (h : t.alg.isHMAC = false) :
    validateToken cfg now t = .error .invalidToken := by
  unfold validateToken
  rw [h]
  simp

/-- Closed instance of `validateToken_rejects_nonHMAC` at a concrete
RS256 token. -/
theorem validateToken_rejects_nonHMAC_witness :
    validateToken cfg0 1 tokRS256 = .error .invalidToken :=
  validateToken_rejects_nonHMAC cfg0 1 tokRS256 rfl

/-- C3 counterexample: a failure of the session tenant-filter clear is not
fatal — the transaction is committed and the response is 200, not 500 —
and on the panic path the transaction is rolled back (released) without
the session filter ever being cleared. -/
theorem middleware_scope_cex :
    middleware mwClearFail =
      { actions := [TxAction.setScope 1, TxAction.clearScopeFailed, TxAction.commit],
        status := 200, panicOut := none, captured := 200 }
    ∧ middleware mwPanic =
      { actions := [TxAction.setScope 1, TxAction.rollback],
        status := 200, panicOut := some "boom", captured := 200 } := by
  constructor <;> rfl

/-- C3 (amended): a failure of the session tenant-filter set operation is
fatal — the bound transaction is rolled back, never committed, and a 500
response is produced; a failure of the clear operation is only logged.  On
every non-panic path that releases the transaction with a tenant scope
set, a clear of the session filter is attempted before the transaction is
released; on the panic path the transaction is rolled back without a
clear. -/
theorem middleware_scope_amended (i : MwInput) (t : Int)
    (hb : i.beginFails = false) (ht : i.tenantID = some t) :
    (i.setScopeFails = true →
      middleware i =
        { actions := [TxAction.rollback], status := 500, panicOut := none, captured := 200 })
    ∧ (i.setScopeFails = false → i.handlerPanic = none →
      ∃ c fin, (middleware i).actions = [TxAction.setScope t, c, fin]
        ∧ (c = TxAction.clearScopeOk ∨ c = TxAction.clearScopeFailed)
        ∧ (fin = TxAction.commit ∨ fin = TxAction.rollback))
    ∧ (∀ v, i.setScopeFails = false → i.handlerPanic = some v →
      (middleware i).actions = [TxAction.setScope t, TxAction.rollback]) := by
  refine ⟨fun hs => ?_, fun hs hp => ?_, fun v hs hp => ?_⟩
  · simp [middleware, hb, ht, hs]
  · by_cases hcap : 200 ≤ capturedStatus i.handlerWrites ∧ capturedStatus i.handlerWrites < 500
    · cases hcf : i.clearScopeFails with
      | false =>
        exact ⟨TxAction.clearScopeOk, TxAction.commit,
          by simp [middleware, finalizePhase, hb, ht, hs, hp, hcap, hcf],
          Or.inl rfl, Or.inl rfl⟩
      | true =>
        exact ⟨TxAction.clearScopeFailed, TxAction.commit,
          by simp [middleware, finalizePhase, hb, ht, hs, hp, hcap, hcf],
          Or.inr rfl, Or.inl rfl⟩
    · cases hcf : i.clearScopeFails with
      | false =>
        exact ⟨TxAction.clearScopeOk, TxAction.rollback,
          by simp [middleware, finalizePhase, hb, ht, hs, hp, hcap, hcf],
          Or.inl rfl, Or.inr rfl⟩
      | true =>
        exact ⟨TxAction.clearScopeFailed, TxAction.rollback,
          by simp [middleware, finalizePhase, hb, ht, hs, hp, hcap, hcf],
          Or.inr rfl, Or.inr rfl⟩
  · simp [middleware, finalizePhase, hb, ht, hs, hp]

/-- Closed instance of `middleware_scope_amended` at a scoped request. -/
theorem middleware_scope_amended_witness :
    (mwPlain.setScopeFails = true →
      middleware mwPlain =
        { actions := [TxAction.rollback], status := 500, panicOut := none, captured := 200 })
    ∧ (mwPlain.setScopeFails = false → mwPlain.handlerPanic = none →
      ∃ c fin, (middleware mwPlain).actions = [TxAction.setScope 1, c, fin]
        ∧ (c = TxAction.clearScopeOk ∨ c = TxAction.clearScopeFailed)
        ∧ (fin = TxAction.commit ∨ fin = TxAction.rollback))
    ∧ (∀ v, mwPlain.setScopeFails = false → mwPlain.handlerPanic = some v →
      (middleware mwPlain).actions = [TxAction.setScope 1, TxAction.rollback]) :=
  middleware_scope_amended mwPlain 1 rfl rfl

/-- C4: whenever the deferred finalizer is installed (Begin succeeded and
any tenant-scope set succeeded), the transaction is committed exactly when
the captured status code lies in 200..499; a server-error status of 500 or
above causes a rollback and no commit; and a handler panic causes exactly
one rollback, no commit, and the same panic value is re-raised. -/
theorem middleware_finalize (i : MwInput)
    (hb : i.beginFails = false)
    (hs : ∀ t, i.tenantID = some t → i.setScopeFails = false) :
    (i.handlerPanic = none →
      ((TxAction.commit ∈ (middleware i).actions ↔
        (200 ≤ capturedStatus i.handlerWrites ∧ capturedStatus i.handlerWrites < 500))
      ∧ (500 ≤ capturedStatus i.handlerWrites →
          TxAction.rollback ∈ (middleware i).actions
          ∧ TxAction.commit ∉ (middleware i).actions)))
    ∧ (∀ v, i.handlerPanic = some v →
        ((middleware i).actions.count TxAction.rollback = 1
        ∧ TxAction.commit ∉ (middleware i).actions
        ∧ (middleware i).panicOut = some v)) := by
  constructor
  · intro hp
    by_cases hcap : 200 ≤ capturedStatus i.handlerWrites ∧ capturedStatus i.handlerWrites < 500
    · constructor
      · cases htid : i.tenantID with
        | none => simp [middleware, finalizePhase, hb, htid, hp, hcap]
        | some t =>
          have hsf := hs t htid
          cases hcf : i.clearScopeFails <;>
            simp [middleware, finalizePhase, hb, htid, hsf, hp, hcap, hcf]
      · intro h500
        omega
    · constructor
      · cases htid : i.tenantID with
        | none => simp [middleware, finalizePhase, hb, htid, hp, hcap]
        | some t =>
          have hsf := hs t htid
          cases hcf : i.clearScopeFails <;>
            simp [middleware, finalizePhase, hb, htid, hsf, hp, hcap, hcf]
      · intro h500
        cases htid : i.tenantID with
        | none => simp [middleware, finalizePhase, hb, htid, hp, hcap]
        | some t =>
          have hsf := hs t htid
          cases hcf : i.clearScopeFails <;>
            simp [middleware, finalizePhase, hb, htid, hsf, hp, hcap, hcf]
  · intro v hp
    cases htid : i.tenantID with
    | none =>
      simp [middleware, finalizePhase, hb, htid, hp, List.count_cons, List.count_nil]
    | some t =>
      have hsf := hs t htid
      simp [middleware, finalizePhase, hb, htid, hsf, hp, List.count_cons, List.count_nil]

/-- Closed instance of `middleware_finalize` at a panicking request with a
tenant scope. -/
theorem middleware_finalize_witness :
    (mwPanic.handlerPanic = none →
      ((TxAction.commit ∈ (middleware mwPanic).actions ↔
        (200 ≤ capturedStatus mwPanic.handlerWrites ∧ capturedStatus mwPanic.handlerWrites < 500))
      ∧ (500 ≤ capturedStatus mwPanic.handlerWrites →
          TxAction.rollback ∈ (middleware mwPanic).actions
          ∧ TxAction.commit ∉ (middleware mwPanic).actions)))
    ∧ (∀ v, mwPanic.handlerPanic = some v →
        ((middleware mwPanic).actions.count TxAction.rollback = 1
        ∧ TxAction.commit ∉ (middleware mwPanic).actions
        ∧ (middleware mwPanic).panicOut = some v)) :=
  middleware_finalize mwPanic rfl (fun _ _ => rfl)

/-- C10: a request whose handler never calls WriteHeader keeps the
responseWriter's initial 200 as the captured status, so the bound
transaction is committed, not rolled back. -/
theorem middleware_default_status_commit (i : MwInput)
    (hb : i.beginFails = false)
    (hs : ∀ t, i.tenantID = some t → i.setScopeFails = false)
    (hp : i.handlerPanic = none)
    (hw : i.handlerWrites = []) :
    (middleware i).captured = 200
    ∧ TxAction.commit ∈ (middleware i).actions
    ∧ TxAction.rollback ∉ (middleware i).actions := by
  have hcap : capturedStatus i.handlerWrites = 200 := by
    rw [hw]
    rfl
  cases htid : i.tenantID with
  | none => simp [middleware, finalizePhase, hb, htid, hp, hcap, capturedStatus, hw]
  | some t =>
    have hsf := hs t htid
    cases hcf : i.clearScopeFails <;>
      simp [middleware, finalizePhase, hb, htid, hsf, hp, hcap, hcf, capturedStatus, hw]

/-- Closed instance of `middleware_default_status_commit` at a scoped
request with no explicit WriteHeader call. -/
theorem middleware_default_status_commit_witness :
    (middleware mwPlain).captured = 200
    ∧ TxAction.commit ∈ (middleware mwPlain).actions
    ∧ TxAction.rollback ∉ (middleware mwPlain).actions :=
  middleware_default_status_commit mwPlain rfl (fun _ _ => rfl) rfl rfl

/-- C6: for every authenticated request, a store error during the
system-role lookup degrades to the empty role set (same outcome as a
successful empty lookup, and the request proceeds when no tenant scope is
present), a store error during the membership check is treated as
non-membership, and a request carrying a tenant scope is rejected with 403
exactly when the requester is neither an (effective) member nor an
admin. -/
theorem roleMiddleware_failure_policy (i : RoleMwInput) (u : Int)
    (hu : i.userID = some u) :
    (i.sysRolesResult = .error () →
        roleMiddleware i = roleMiddleware { i with sysRolesResult := .ok [] })
    ∧ (i.sysRolesResult = .error () → i.tenantID = none →
        roleMiddleware i = .proceed [])
    ∧ (i.memberResult = .error () →
        roleMiddleware i = roleMiddleware { i with memberResult := .ok false })
    ∧ (∀ t, i.tenantID = some t →
        (roleMiddleware i = .reject 403 ↔
          (effectiveIsMember i = false
            ∧ (effectiveSystemRoles i).contains RoleAdmin = false))) := by
  refine ⟨fun hsys => ?_, fun hsys htid => ?_, fun hmem => ?_, fun t htid => ?_⟩
  · simp [roleMiddleware, effectiveSystemRoles, effectiveIsMember, hu, hsys]
  · simp [roleMiddleware, effectiveSystemRoles, hu, hsys, htid]
  · simp [roleMiddleware, effectiveSystemRoles, effectiveIsMember, hu, hmem]
  · cases hm : effectiveIsMember i with
    | false =>
      cases hadm : (effectiveSystemRoles i).contains RoleAdmin with
      | false =>
        have hadm2 : RoleAdmin ∉ effectiveSystemRoles i := by simpa using hadm
        simp [roleMiddleware, hu, htid, hm, hadm2]
      | true =>
        have hadm2 : RoleAdmin ∈ effectiveSystemRoles i := by simpa using hadm
        cases htr : i.tenantRolesResult <;>
          simp [roleMiddleware, hu, htid, hm, hadm2, htr]
    | true =>
      cases htr : i.tenantRolesResult <;>
        simp [roleMiddleware, hu, htid, hm, htr]

/-- Closed instance of `roleMiddleware_failure_policy` at a request whose
role and membership lookups both fail: the request is rejected with 403
(fail-closed membership with degraded empty roles). -/
theorem roleMiddleware_failure_policy_witness :
    (rmwErr.sysRolesResult = .error () →
        roleMiddleware rmwErr = roleMiddleware { rmwErr with sysRolesResult := .ok [] })
    ∧ (rmwErr.sysRolesResult = .error () → rmwErr.tenantID = none →
        roleMiddleware rmwErr = .proceed [])
    ∧ (rmwErr.memberResult = .error () →
        roleMiddleware rmwErr = roleMiddleware { rmwErr with memberResult := .ok false })
    ∧ (∀ t, rmwErr.tenantID = some t →
        (roleMiddleware rmwErr = .reject 403 ↔
          (effectiveIsMember rmwErr = false
            ∧ (effectiveSystemRoles rmwErr).contains RoleAdmin = false))) :=
  roleMiddleware_failure_policy rmwErr 1 rfl

/-- C9 counterexample: removing a non-member returns ErrTenantNotFound,
not ErrMemberNotFound. -/
theorem removeTenantMember_cex :
    (removeTenantMember fOk dbEmpty 1 2).1 = .error .tenantNotFound
    ∧ (removeTenantMember fOk dbEmpty 1 2).1 ≠ .error .memberNotFound := by
  constructor
  · rfl
  · intro h
    injection h with h2
    cases h2

/-- C9 (amended): RemoveTenantMember deletes the membership and all of the
user's role grants for the tenant in one atomic unit — after a successful
call no role grant and no membership row of that user for that tenant
remains and no other row is touched — while on any failure, including the
not-a-member case which returns ErrTenantNotFound, the database is left
unchanged. -/
theorem removeTenantMember_atomic (f : DBFail) (db : TenantDB) (u t : Int) :
    (∀ db2, removeTenantMember f db u t = (.ok (), db2) →
        ((∀ g ∈ db2.roleGrants, ¬(g.1 = u ∧ g.2.1 = t))
          ∧ (∀ m ∈ db2.members, ¬(m.1 = u ∧ m.2 = t))
          ∧ (∀ g ∈ db.roleGrants, ¬(g.1 = u ∧ g.2.1 = t) → g ∈ db2.roleGrants)
          ∧ (∀ m ∈ db.members, ¬(m.1 = u ∧ m.2 = t) → m ∈ db2.members)))
    ∧ (∀ e db2, removeTenantMember f db u t = (.error e, db2) → db2 = db)
    ∧ (f.beginFails = false → f.deleteRolesFails = false → f.deleteMemberFails = false →
        (∀ m ∈ db.members, ¬(m.1 = u ∧ m.2 = t)) →
        removeTenantMember f db u t = (.error .tenantNotFound, db)) := by
  refine ⟨fun db2 hok => ?_, fun e db2 herr => ?_, fun h1 h2 h3 hnm => ?_⟩
  · unfold removeTenantMember at hok
    repeat' split at hok
    all_goals rw [Prod.mk.injEq] at hok
    any_goals exact Except.noConfusion hok.1
    obtain ⟨-, hdb⟩ := hok
    subst hdb
    refine ⟨?_, ?_, ?_, ?_⟩
    · intro g hg
      dsimp only at hg
      have hp := List.of_mem_filter hg
      exact of_decide_eq_true hp
    · intro m hm
      dsimp only at hm
      have hp := List.of_mem_filter hm
      exact of_decide_eq_true hp
    · intro g hg hne
      dsimp only
      exact List.mem_filter.mpr ⟨hg, decide_eq_true hne⟩
    · intro m hm hne
      dsimp only
      exact List.mem_filter.mpr ⟨hm, decide_eq_true hne⟩
  · unfold removeTenantMember at herr
    repeat' split at herr
    all_goals rw [Prod.mk.injEq] at herr
    any_goals exact herr.2.symm
    all_goals exact Except.noConfusion herr.1
  · have hfilter : List.filter (fun m => decide (m.1 = u ∧ m.2 = t)) db.members = [] := by
      rw [List.filter_eq_nil_iff]
      intro m hm
      simpa using hnm m hm
    unfold removeTenantMember
    rw [h1, h2, h3]
    rw [if_neg (by simp), if_neg (by simp), if_neg (by simp),
        if_pos (by rw [hfilter]; rfl)]

/-- Closed instance of `removeTenantMember_atomic` at a concrete database
holding one membership with one role grant. -/
theorem removeTenantMember_atomic_witness :
    (∀ db2, removeTenantMember fOk dbW 1 2 = (.ok (), db2) →
        ((∀ g ∈ db2.roleGrants, ¬(g.1 = 1 ∧ g.2.1 = 2))
          ∧ (∀ m ∈ db2.members, ¬(m.1 = 1 ∧ m.2 = 2))
          ∧ (∀ g ∈ dbW.roleGrants, ¬(g.1 = 1 ∧ g.2.1 = 2) → g ∈ db2.roleGrants)
          ∧ (∀ m ∈ dbW.members, ¬(m.1 = 1 ∧ m.2 = 2) → m ∈ db2.members)))
    ∧ (∀ e db2, removeTenantMember fOk dbW 1 2 = (.error e, db2) → db2 = dbW)
    ∧ (fOk.beginFails = false → fOk.deleteRolesFails = false →
        fOk.deleteMemberFails = false →
        (∀ m ∈ dbW.members, ¬(m.1 = 1 ∧ m.2 = 2)) →
        removeTenantMember fOk dbW 1 2 = (.error .tenantNotFound, dbW)) :=
  removeTenantMember_atomic fOk dbW 1 2

end Silocore
